import Mathlib

/-!
Verification of the GEM component model (`src/Inc/Gem.hpp`).

The header holds two variants of the same library, separated in the packed
source; we embed both where the claims touch them.  The first variant
(lines 1-425) declares `Result` over `INT32` with `Success = 0` and failures
negative, generates `InternalQueryInterface` through the interface-map macros
(`BEGIN_GEM_INTERFACE_MAP0`, `BEGIN_GEM_INTERFACE_MAP`, `GEM_INTERFACE_ENTRY`,
`GEM_CONTAINED_INTERFACE_ENTRY`, `END_GEM_INTERFACE_MAP`), and its `GemError`
constructor coerces success codes to `Fail`.  The second variant (lines
426-780) handles the `XGeneric` identity inside `TGeneric::InternalQueryInterface`
itself and its `TGemPtr::Detach` returns `void`.

Pointers are embedded as natural numbers with `0` for `nullptr`; an object's
`this` pointer is its `addr` field.  `ULONG` arithmetic is taken modulo
`2 ^ 32` exactly where `InterlockedIncrement` / `InterlockedDecrement` act.
`delete(this)` is recorded by the `destroyed` flag.
-/

namespace Gem

/-- `Gem::InterfaceId` (first variant): a wrapper over a `UINT64` value,
compared by value (`operator==`). -/
structure InterfaceId where
  Value : Nat
deriving DecidableEq, Repr

/-- `XGeneric::IId`: `GEM_INTERFACE_DECLARE(0xffffffffU)`. -/
def XGenericIId : InterfaceId := ⟨0xffffffff⟩

/-- `enum class Gem::Result` (first variant, `INT32` based). -/
inductive Result where
  | Success
  | End
  | Fail
  | InvalidArg
  | NotFound
  | OutOfMemory
  | NoInterface
  | BadPointer
  | NotImplemented
  | Unavailable
  | Uninitialized
deriving DecidableEq, Repr

/-- The `INT32` value of each enumerator in the first variant:
`Success = 0`, `End = 1`, `Fail = -1` down to `Uninitialized = -9`. -/
def Result.toINT32 : Result → Int
  | .Success => 0
  | .End => 1
  | .Fail => -1
  | .InvalidArg => -2
  | .NotFound => -3
  | .OutOfMemory => -4
  | .NoInterface => -5
  | .BadPointer => -6
  | .NotImplemented => -7
  | .Unavailable => -8
  | .Uninitialized => -9

/-- `Gem::Succeeded`: `result >= Gem::Result::Success` on the `INT32` values. -/
def Succeeded (result : Result) : Bool := decide (0 ≤ result.toINT32)

/-- `Gem::Failed`: `result < Gem::Result::Success` on the `INT32` values. -/
def Failed (result : Result) : Bool := decide (result.toINT32 < 0)

/-- `class Gem::GemError` (first variant): stores one `Result`. -/
structure GemError where
  m_result : Result
deriving DecidableEq, Repr

/-- The `GemError(Result)` converting constructor (first variant):
`m_result(result >= Gem::Result::Success ? Gem::Result::Fail : result)`. -/
def GemError.ofResult (result : Result) : GemError :=
  ⟨if 0 ≤ result.toINT32 then Result.Fail else result⟩

/-- `GemError::Result()`: the stored result. -/
def GemError.Result (e : GemError) : Result := e.m_result

/-- `Gem::ThrowGemError`: `if (Failed(result)) throw(GemError(result));`.
A thrown `GemError` is embedded as `some`; a normal return as `none`. -/
def ThrowGemError (result : Result) : Option GemError :=
  if Failed result then some (GemError.ofResult result) else none

/-- A machine pointer; `0` embeds `nullptr`. -/
abbrev Ptr := Nat

/-- One `case` of a macro-generated interface map:
`GEM_INTERFACE_ENTRY(IFace)` writes `reinterpret_cast<IFace *>(this)` (the
object's own address); `GEM_CONTAINED_INTERFACE_ENTRY(IFace, member)` writes
`&member`, the address of the aggregated inner member. -/
inductive Entry where
  | direct (iid : InterfaceId)
  | contained (iid : InterfaceId) (memberAddr : Ptr)
deriving DecidableEq, Repr

/-- The identity an entry's `case` label matches. -/
def Entry.iid : Entry → InterfaceId
  | .direct i => i
  | .contained i _ => i

/-- The pointer an entry writes to `*ppObj`, given the object's `this`. -/
def Entry.ptr (selfAddr : Ptr) : Entry → Ptr
  | .direct _ => selfAddr
  | .contained _ q => q

/-- A `TGeneric<_Base>` object (first variant): its `this` address, whether
its map was opened with `BEGIN_GEM_INTERFACE_MAP` (which adds the
`case XGeneric::IId` arm) or `BEGIN_GEM_INTERFACE_MAP0` (which does not), the
declared map entries, the `ULONG m_RefCount`, and whether `delete(this)`
has run. -/
structure Obj where
  addr : Ptr
  hasXGenericEntry : Bool
  entries : List Entry
  m_RefCount : Nat
  destroyed : Bool
deriving DecidableEq, Repr

/-- Dispatch of the `switch(iid)` over the declared entries: the first entry
whose `case` label equals `iid` wins (C++ forbids duplicate labels, so order
is immaterial there; the embedding takes the first). -/
def findEntry (selfAddr : Ptr) (iid : InterfaceId) : List Entry → Option Ptr
  | [] => none
  | e :: rest =>
    if e.iid = iid then some (e.ptr selfAddr) else findEntry selfAddr iid rest

/-- The full `switch` of the macro-generated map: the
`case XGeneric::IId: *ppObj = reinterpret_cast<XGeneric *>(this)` arm when
the map was opened with `BEGIN_GEM_INTERFACE_MAP`, then the declared
entries; `none` embeds falling into `default`. -/
def mapLookup (o : Obj) (iid : InterfaceId) : Option Ptr :=
  if o.hasXGenericEntry && (iid == XGenericIId) then some o.addr
  else findEntry o.addr iid o.entries

/-- `TGeneric::InternalAddRef`: `InterlockedIncrement(&m_RefCount)` on a
`ULONG`; returns the new count and the updated object. -/
def InternalAddRef (o : Obj) : Nat × Obj :=
  let result := (o.m_RefCount + 1) % 2 ^ 32
  (result, { o with m_RefCount := result })

/-- `TGeneric::InternalRelease`: `InterlockedDecrement(&m_RefCount)` on a
`ULONG`; `if (0UL == result) delete(this);` then returns the result. -/
def InternalRelease (o : Obj) : Nat × Obj :=
  let result := (o.m_RefCount + 2 ^ 32 - 1) % 2 ^ 32
  if result = 0 then (result, { o with m_RefCount := result, destroyed := true })
  else (result, { o with m_RefCount := result })

/-- `TGeneric::AddRef`: `return InternalAddRef();`. -/
def TGeneric.AddRef (o : Obj) : Nat × Obj := InternalAddRef o

/-- `TGeneric::Release`: `return InternalRelease();`. -/
def TGeneric.Release (o : Obj) : Nat × Obj := InternalRelease o

/-- Outcome of a macro-generated `InternalQueryInterface` call: the returned
`Result`, the value left in `*ppObj`, and the object afterwards. -/
structure QIOut where
  res : Result
  written : Ptr
  obj : Obj
deriving DecidableEq, Repr

/-- Outcome of `TGeneric::QueryInterface`: the returned `Result`, what was
written through `ppObj` (`none` when nothing was written because `ppObj`
itself was null), and the object afterwards. -/
structure QIResult where
  res : Result
  written : Option Ptr
  obj : Obj
deriving DecidableEq, Repr

/-- The `InternalQueryInterface` generated by the first variant's map macros:
`*ppObj = nullptr; switch(iid) { default: return NoInterface; ... }` and,
after a matching `case` breaks out, `AddRef(); return Success;`
(`END_GEM_INTERFACE_MAP`). -/
def InternalQueryInterface (o : Obj) (iid : InterfaceId) : QIOut :=
  match mapLookup o iid with
  | none => ⟨Result.NoInterface, 0, o⟩
  | some p => ⟨Result.Success, p, (InternalAddRef o).2⟩

/-- `TGeneric::QueryInterface` (first variant): `if (!ppObj) return BadPointer;`
then `return _Base::InternalQueryInterface(iid, ppObj);`.  `ppObjNull` is
whether the caller passed a null output location. -/
def QueryInterface (o : Obj) (iid : InterfaceId) (ppObjNull : Bool) : QIResult :=
  if ppObjNull then ⟨Result.BadPointer, none, o⟩
  else
    let q := InternalQueryInterface o iid
    ⟨q.res, some q.written, q.obj⟩

/-- `CGenericBase::InternalQueryInterface`: `*ppUnk = nullptr; return NoInterface;`. -/
def CGenericBase.InternalQueryInterface (o : Obj) (_iid : InterfaceId) : QIOut :=
  ⟨Result.NoInterface, 0, o⟩

/-- `TGeneric::InternalQueryInterface` of the second variant: handles
`XGeneric::IId` itself (`*ppObj = reinterpret_cast<XGeneric *>(this);
AddRef(); return Success;`) and otherwise delegates to
`_Base::InternalQueryInterface`, supplied here as `base`. -/
def TGeneric.InternalQueryInterface2 (base : Obj → InterfaceId → QIOut)
    (o : Obj) (iid : InterfaceId) : QIOut :=
  if iid = XGenericIId then ⟨Result.Success, o.addr, (InternalAddRef o).2⟩
  else base o iid

/-- `TGeneric::QueryInterface` of the second variant: the same null check,
then the second variant's `InternalQueryInterface`. -/
def TGeneric.QueryInterface2 (base : Obj → InterfaceId → QIOut)
    (o : Obj) (iid : InterfaceId) (ppObjNull : Bool) : QIResult :=
  if ppObjNull then ⟨Result.BadPointer, none, o⟩
  else
    let q := TGeneric.InternalQueryInterface2 base o iid
    ⟨q.res, some q.written, q.obj⟩

/-- A `TInnerGeneric<_Base>` object: `CInnerGenericBase` gives it exactly one
piece of state, the weak back-reference `m_pOuterGeneric`; it carries no
reference count of its own. -/
structure InnerObj where
  m_pOuterGeneric : Obj
deriving DecidableEq, Repr

/-- `TInnerGeneric::AddRef`: `return m_pOuterGeneric->AddRef();`. -/
def InnerObj.AddRef (i : InnerObj) : Nat × Obj := TGeneric.AddRef i.m_pOuterGeneric

/-- `TInnerGeneric::Release`: `return m_pOuterGeneric->Release();`. -/
def InnerObj.Release (i : InnerObj) : Nat × Obj := TGeneric.Release i.m_pOuterGeneric

/-- `TInnerGeneric::QueryInterface`: `return m_pOuterGeneric->QueryInterface(iid, ppObj);`. -/
def InnerObj.QueryInterface (i : InnerObj) (iid : InterfaceId) (ppObjNull : Bool) : QIResult :=
  Gem.QueryInterface i.m_pOuterGeneric iid ppObjNull

/-- What a capability pointer handed out by an outer object dispatches to:
a direct entry's pointer is a cast of the outer `this` (virtual calls land in
`TGeneric`), a contained entry's pointer is the aggregated `TInnerGeneric`
member (virtual calls are forwarded through its back-reference). -/
inductive View where
  | outer (o : Obj)
  | inner (i : InnerObj)
deriving DecidableEq, Repr

/-- The outer object a view's identity-sensitive calls act on. -/
def View.outerOf : View → Obj
  | .outer o => o
  | .inner i => i.m_pOuterGeneric

/-- `QueryInterface` through a capability pointer: virtual dispatch lands in
`TGeneric::QueryInterface` or `TInnerGeneric::QueryInterface`. -/
def View.QueryInterface : View → InterfaceId → Bool → QIResult
  | .outer o, iid, ppObjNull => Gem.QueryInterface o iid ppObjNull
  | .inner i, iid, ppObjNull => i.QueryInterface iid ppObjNull

/-- In C++ neither `this` nor the address of a data member is null: a
well-formed object has a nonzero address and nonzero contained-member
addresses. -/
def Entry.wfPtr : Entry → Bool
  | .direct _ => true
  | .contained _ q => q != 0

/-- Well-formedness of an object as C++ guarantees it. -/
def Obj.WF (o : Obj) : Bool := (o.addr != 0) && o.entries.all Entry.wfPtr

/-!
`TGemPtr` is modelled over a one-object world: the handle's `m_p` field is a
pointer that is either null or the address of the single tracked object `o`,
so every `Release()` / `AddRef()` through a non-null pointer acts on `o`.
The theorems only ever instantiate the pointers with `0` or `o.addr`.
-/

/-- `TGemPtr::operator=(_Type *p)` (both variants):
`if (m_p) m_p->Release(); m_p = p; if (p) m_p->AddRef();` — note the
release happens first and there is no same-pointer test.  Returns the new
`m_p` and the tracked object afterwards. -/
def TGemPtr.assignRaw (m_p : Ptr) (o : Obj) (p : Ptr) : Ptr × Obj :=
  let o1 := if m_p ≠ 0 then (InternalRelease o).2 else o
  let o2 := if p ≠ 0 then (InternalAddRef o1).2 else o1
  (p, o2)

/-- `TGemPtr::operator=(const TGemPtr &o)` (both variants):
`auto temp = m_p; m_p = o.m_p; if (temp != m_p) { if (m_p) m_p->AddRef();
if (temp) temp->Release(); }`.  `src` is the source handle's pointer. -/
def TGemPtr.assignCopy (m_p : Ptr) (o : Obj) (src : Ptr) : Ptr × Obj :=
  if m_p ≠ src then
    let o1 := if src ≠ 0 then (InternalAddRef o).2 else o
    let o2 := if m_p ≠ 0 then (InternalRelease o1).2 else o1
    (src, o2)
  else (src, o)

/-- `TGemPtr::operator=(TGemPtr &&o)` (both variants):
`if (m_p != o.m_p) { auto temp = m_p; m_p = o.m_p; if (temp) temp->Release(); }
o.m_p = nullptr;`.  Returns the new `m_p`, the source handle's new pointer
(always null), and the tracked object afterwards. -/
def TGemPtr.assignMove (m_p : Ptr) (o : Obj) (src : Ptr) : Ptr × Ptr × Obj :=
  if m_p ≠ src then
    let o1 := if m_p ≠ 0 then (InternalRelease o).2 else o
    (src, 0, o1)
  else (m_p, 0, o)

/-- `TGemPtr::Detach` (first variant):
`_Type *pOut = m_p; m_p = nullptr; return pOut;` — returns the held pointer,
empties the handle, and performs no `Release` (the object passes through
untouched).  Returns `(pOut, new m_p, object)`. -/
def TGemPtr.Detach (m_p : Ptr) (o : Obj) : Ptr × Ptr × Obj := (m_p, 0, o)

/-- `TGemPtr::Detach` (second variant): `void Detach() { m_p = nullptr; }` —
empties the handle without releasing, returning nothing.  Returns
`(new m_p, object)`. -/
def TGemPtr.Detach2 (_m_p : Ptr) (o : Obj) : Ptr × Obj := (0, o)

/-!  Concrete objects used by witnesses and counterexamples. -/

/-- An object at address 1 whose class opened its map with
`BEGIN_GEM_INTERFACE_MAP0` and declared no entries; count 1, live. -/
def oMap0 : Obj := ⟨1, false, [], 1, false⟩

/-- An object at address 1 whose class opened its map with
`BEGIN_GEM_INTERFACE_MAP` and declared no further entries; count 1, live. -/
def oMap1 : Obj := ⟨1, true, [], 1, false⟩

/-- An outer object at address 1 with an aggregated inner member at address 2
exposed for interface identity 5 through `GEM_CONTAINED_INTERFACE_ENTRY`, and
a direct entry for identity 7; count 1, live. -/
def oAgg : Obj := ⟨1, true, [Entry.contained ⟨5⟩ 2, Entry.direct ⟨7⟩], 1, false⟩

/-!  Helper lemmas shared by the claim theorems. -/

/-- A pointer produced by the entry `switch` of a well-formed map is non-null. -/
theorem findEntry_ne_zero (selfAddr : Ptr) (iid : InterfaceId) (l : List Entry)
    (hself : selfAddr ≠ 0) (hwf : l.all Entry.wfPtr = true) (p : Ptr)
    (h : findEntry selfAddr iid l = some p) : p ≠ 0 := by
  induction l with
  | nil => simp [findEntry] at h
  | cons e rest ih =>
    rw [List.all_cons, Bool.and_eq_true] at hwf
    rw [findEntry] at h
    by_cases he : e.iid = iid
    · rw [if_pos he] at h
      have hp : e.ptr selfAddr = p := by injection h
      subst hp
      cases e with
      | direct i => simpa [Entry.ptr] using hself
      | contained i q =>
        have hq := hwf.1
        simp [Entry.wfPtr] at hq
        simpa [Entry.ptr] using hq
    · rw [if_neg he] at h
      exact ih hwf.2 h

/-- A pointer produced by the full map `switch` of a well-formed object is
non-null. -/
theorem mapLookup_ne_zero (o : Obj) (iid : InterfaceId) (p : Ptr)
    (hwf : o.WF = true) (h : mapLookup o iid = some p) : p ≠ 0 := by
  rw [Obj.WF, Bool.and_eq_true] at hwf
  have haddr : o.addr ≠ 0 := by simpa using hwf.1
  rw [mapLookup] at h
  by_cases hc : (o.hasXGenericEntry && (iid == XGenericIId)) = true
  · rw [if_pos hc] at h
    have hap : o.addr = p := by injection h
    exact hap ▸ haddr
  · rw [if_neg hc] at h
    exact findEntry_ne_zero o.addr iid o.entries haddr hwf.2 p h

/-- A capability query through any view is the same call on the view's outer
object. -/
theorem View.queryInterface_through_outer (v : View) (iid : InterfaceId) (b : Bool) :
    v.QueryInterface iid b = Gem.QueryInterface v.outerOf iid b := by
  cases v <;> rfl

/-!  The claims. -/

/-- Claim C1: for every object and every interface identity its map implements
(directly or via a contained-member aggregation entry), `QueryInterface` with
that identity and a non-null output location returns `Success`, writes a
non-null capability pointer, and increments the reference count by exactly 1
before returning. -/
theorem c1_query_supported_succeeds_and_addrefs (o : Obj) (iid : InterfaceId) (p : Ptr)
    (hwf : o.WF = true) (himpl : mapLookup o iid = some p)
    (hcount : o.m_RefCount + 1 < 2 ^ 32) :
    (QueryInterface o iid false).res = Result.Success ∧
    (QueryInterface o iid false).written = some p ∧
    p ≠ 0 ∧
    (QueryInterface o iid false).obj.m_RefCount = o.m_RefCount + 1 := by
  have hc : o.m_RefCount + 1 < 4294967296 := by omega
  refine ⟨?_, ?_, mapLookup_ne_zero o iid p hwf himpl, ?_⟩ <;>
    simp [QueryInterface, InternalQueryInterface, himpl, InternalAddRef,
      Nat.mod_eq_of_lt hc]

/-- Claim C1 witness: the aggregated entry for identity 5 of `oAgg`. -/
theorem c1_query_supported_succeeds_and_addrefs_witness :
    (QueryInterface oAgg ⟨5⟩ false).res = Result.Success ∧
    (QueryInterface oAgg ⟨5⟩ false).written = some 2 ∧
    (2 : Ptr) ≠ 0 ∧
    (QueryInterface oAgg ⟨5⟩ false).obj.m_RefCount = oAgg.m_RefCount + 1 :=
  c1_query_supported_succeeds_and_addrefs oAgg ⟨5⟩ 2 (by decide) (by decide) (by decide)

/-- Claim C2: for every object and every interface identity not present in its
map (directly or via aggregation), `QueryInterface` with a non-null output
location writes a null pointer, returns `NoInterface`, and leaves the object
(in particular its reference count) unchanged. -/
theorem c2_query_unsupported_no_interface (o : Obj) (iid : InterfaceId)
    (h : mapLookup o iid = none) :
    QueryInterface o iid false = ⟨Result.NoInterface, some 0, o⟩ := by
  simp [QueryInterface, InternalQueryInterface, h]

/-- Claim C2 witness: identity 9 is absent from `oAgg`'s map. -/
theorem c2_query_unsupported_no_interface_witness :
    QueryInterface oAgg ⟨9⟩ false = ⟨Result.NoInterface, some 0, oAgg⟩ :=
  c2_query_unsupported_no_interface oAgg ⟨9⟩ (by decide)

/-- Claim C3: for every object and every interface identity (supported or not),
`QueryInterface` with a null output location returns `BadPointer` and leaves
the object unchanged, in both variants of `TGeneric::QueryInterface`; the
null check precedes any consultation of the interface map (the conclusion
holds for every `iid`, mapped or not, and nothing is written). -/
theorem c3_null_output_bad_pointer (o : Obj) (iid : InterfaceId)
    (base : Obj → InterfaceId → QIOut) :
    QueryInterface o iid true = ⟨Result.BadPointer, none, o⟩ ∧
    TGeneric.QueryInterface2 base o iid true = ⟨Result.BadPointer, none, o⟩ :=
  ⟨rfl, rfl⟩

/-- Claim C4: for every live object with count `n ≥ 1`, `Release()` decrements
the count and returns `n - 1`; the object is destroyed exactly when the
decrement result is zero (in which case `Release` returned 0), and not
destroyed when the result is nonzero. -/
theorem c4_release_decrements_and_destroys_at_zero (o : Obj)
    (h1 : 1 ≤ o.m_RefCount) (h2 : o.m_RefCount < 2 ^ 32) (h3 : o.destroyed = false) :
    (TGeneric.Release o).1 = o.m_RefCount - 1 ∧
    (TGeneric.Release o).2.m_RefCount = o.m_RefCount - 1 ∧
    ((TGeneric.Release o).2.destroyed = true ↔ o.m_RefCount - 1 = 0) := by
  have hmod : (o.m_RefCount + 4294967295) % 4294967296 = o.m_RefCount - 1 := by
    have he : o.m_RefCount + 4294967295 = (o.m_RefCount - 1) + 4294967296 := by omega
    rw [he, Nat.add_mod_right, Nat.mod_eq_of_lt (by omega)]
  by_cases hz : o.m_RefCount - 1 = 0 <;>
    simp [TGeneric.Release, InternalRelease, hmod, hz, h3]

/-- Claim C4 witness: releasing `oMap0` (count 1) returns 0 and destroys it. -/
theorem c4_release_decrements_and_destroys_at_zero_witness :
    (TGeneric.Release oMap0).1 = oMap0.m_RefCount - 1 ∧
    (TGeneric.Release oMap0).2.m_RefCount = oMap0.m_RefCount - 1 ∧
    ((TGeneric.Release oMap0).2.destroyed = true ↔ oMap0.m_RefCount - 1 = 0) :=
  c4_release_decrements_and_destroys_at_zero oMap0 (by decide) (by decide) (by decide)

/-- Claim C5 counterexample: the claim quantifies over every interface-map
variant, but a class that opened its map with `BEGIN_GEM_INTERFACE_MAP0` —
which, unlike `BEGIN_GEM_INTERFACE_MAP`, generates no `case XGeneric::IId`
arm — answers the self-query for the universal base identity with
`NoInterface` and a null pointer. -/
theorem c5_map0_self_query_fails :
    (QueryInterface oMap0 XGenericIId false).res = Result.NoInterface ∧
    (QueryInterface oMap0 XGenericIId false).written = some 0 ∧
    (QueryInterface oMap0 XGenericIId false).obj = oMap0 := by decide

/-- Claim C5 as amended: querying a live object for `XGeneric::IId` through a
non-null output location returns `Success` and the object's own non-null
address whenever the object's map was opened with `BEGIN_GEM_INTERFACE_MAP`
(the variant whose generated map contains the `XGeneric` arm), and under the
second header variant's `TGeneric`, whose `InternalQueryInterface` handles the
base identity itself before delegating, for every base class. -/
theorem c5_self_query_succeeds (o : Obj) (base : Obj → InterfaceId → QIOut)
    (haddr : o.addr ≠ 0) (hX : o.hasXGenericEntry = true) :
    (QueryInterface o XGenericIId false).res = Result.Success ∧
    (QueryInterface o XGenericIId false).written = some o.addr ∧
    o.addr ≠ 0 ∧
    (TGeneric.QueryInterface2 base o XGenericIId false).res = Result.Success ∧
    (TGeneric.QueryInterface2 base o XGenericIId false).written = some o.addr := by
  refine ⟨?_, ?_, haddr, ?_, ?_⟩ <;>
    simp [QueryInterface, InternalQueryInterface, mapLookup, hX,
      TGeneric.QueryInterface2, TGeneric.InternalQueryInterface2]

/-- Claim C5 witness: `oMap1` declared its map with `BEGIN_GEM_INTERFACE_MAP`,
and the second variant over `CGenericBase`. -/
theorem c5_self_query_succeeds_witness :
    (QueryInterface oMap1 XGenericIId false).res = Result.Success ∧
    (QueryInterface oMap1 XGenericIId false).written = some oMap1.addr ∧
    oMap1.addr ≠ 0 ∧
    (TGeneric.QueryInterface2 CGenericBase.InternalQueryInterface oMap1 XGenericIId false).res
      = Result.Success ∧
    (TGeneric.QueryInterface2 CGenericBase.InternalQueryInterface oMap1 XGenericIId false).written
      = some oMap1.addr :=
  c5_self_query_succeeds oMap1 CGenericBase.InternalQueryInterface (by decide) (by decide)

/-- Claim C6: if `QueryInterface(O, J)` yields pointer `p`, then querying any
capability pointer of `O` — the outer's own casts or an aggregated inner
member, both characterised by dispatching to the same outer — for the
universal base identity yields identical outcomes, equal to querying `O`
directly, namely `O`'s own address. -/
theorem c6_identity_transitivity (O : Obj) (J : InterfaceId) (p : Ptr) (v1 v2 : View)
    (hJ : mapLookup O J = some p)
    (h1 : v1.outerOf = O) (h2 : v2.outerOf = O)
    (hX : O.hasXGenericEntry = true) :
    (QueryInterface O J false).written = some p ∧
    v1.QueryInterface XGenericIId false = v2.QueryInterface XGenericIId false ∧
    (v1.QueryInterface XGenericIId false).written
      = (QueryInterface O XGenericIId false).written ∧
    (QueryInterface O XGenericIId false).written = some O.addr := by
  refine ⟨?_, ?_, ?_, ?_⟩
  · simp [QueryInterface, InternalQueryInterface, hJ]
  · rw [View.queryInterface_through_outer, View.queryInterface_through_outer, h1, h2]
  · rw [View.queryInterface_through_outer, h1]
  · simp [QueryInterface, InternalQueryInterface, mapLookup, hX]

/-- Claim C6 witness: the aggregated inner of `oAgg` (identity 5, inner at
address 2) against the outer's own view. -/
theorem c6_identity_transitivity_witness :
    (QueryInterface oAgg ⟨5⟩ false).written = some 2 ∧
    (View.inner ⟨oAgg⟩).QueryInterface XGenericIId false
      = (View.outer oAgg).QueryInterface XGenericIId false ∧
    ((View.inner ⟨oAgg⟩).QueryInterface XGenericIId false).written
      = (QueryInterface oAgg XGenericIId false).written ∧
    (QueryInterface oAgg XGenericIId false).written = some oAgg.addr :=
  c6_identity_transitivity oAgg ⟨5⟩ 2 (View.inner ⟨oAgg⟩) (View.outer oAgg)
    (by decide) (by decide) (by decide) (by decide)

/-- Claim C7: `AddRef`, `Release` and `QueryInterface` on an aggregated inner
object's exposed pointer produce exactly the outer object's corresponding
operation — same returned value and same state change; the `InnerObj` state
carries only the weak back-reference, no count of its own. -/
theorem c7_inner_forwards_to_outer (i : InnerObj) (iid : InterfaceId) (ppObjNull : Bool) :
    i.AddRef = TGeneric.AddRef i.m_pOuterGeneric ∧
    i.Release = TGeneric.Release i.m_pOuterGeneric ∧
    i.QueryInterface iid ppObjNull = Gem.QueryInterface i.m_pOuterGeneric iid ppObjNull :=
  ⟨rfl, rfl, rfl⟩

/-- Claim C8 at its failing input: a handle holding the only counted reference
(count 1) to the object at address 1, reassigned the same raw pointer through
`TGemPtr::operator=(_Type *)`.  The operator releases before re-acquiring with
no same-pointer test, so the count transiently reaches zero and
`InternalRelease` runs `delete(this)`: the object ends destroyed even though
the handle still holds it.  The copy- and move-assignment operators, which do
test for the same pointer, leave the object untouched on the same input. -/
theorem c8_raw_same_pointer_assignment_destroys :
    (TGemPtr.assignRaw 1 oMap1 1).2.destroyed = true ∧
    (TGemPtr.assignRaw 1 oMap1 1).1 = 1 ∧
    (InternalRelease oMap1).2.destroyed = true ∧
    TGemPtr.assignCopy 1 oMap1 1 = (1, oMap1) ∧
    TGemPtr.assignMove 1 oMap1 1 = (1, 0, oMap1) := by decide

/-- Claim C9 counterexample: the second variant's `Detach` returns `void` —
its outcome is the same for every held pointer, so no caller can recover the
held raw pointer from it, refuting "the detach operation returns the raw
pointer that the handle held" for that variant. -/
theorem c9_second_variant_detach_returns_nothing :
    ¬ ∃ recover : Ptr × Obj → Ptr,
      ∀ (m_p : Ptr) (o : Obj), recover (TGemPtr.Detach2 m_p o) = m_p := by
  rintro ⟨f, hf⟩
  have hone := hf 1 oMap1
  have htwo := hf 2 oMap1
  simp only [TGemPtr.Detach2] at hone htwo
  rw [hone] at htwo
  exact absurd htwo (by decide)

/-- Claim C9 as amended: for every non-empty handle, the first variant's
`Detach` returns the held raw pointer and leaves the handle empty without
calling `Release` (the tracked object, hence its count, is unchanged); the
second variant's `Detach` likewise empties the handle without releasing, but
discards the held pointer instead of returning it. -/
theorem c9_detach_transfers_claim (m_p : Ptr) (o : Obj) (_hne : m_p ≠ 0) :
    TGemPtr.Detach m_p o = (m_p, 0, o) ∧ TGemPtr.Detach2 m_p o = (0, o) :=
  ⟨rfl, rfl⟩

/-- Claim C9 witness: a handle holding pointer 3. -/
theorem c9_detach_transfers_claim_witness :
    TGemPtr.Detach 3 oMap1 = (3, 0, oMap1) ∧ TGemPtr.Detach2 3 oMap1 = (0, oMap1) :=
  c9_detach_transfers_claim 3 oMap1 (by decide)

/-- Claim C10: every `GemError` built by the converting constructor holds a
failure-class result — success-class inputs (`Succeeded`, e.g. `Success` or
`End`) are replaced by `Fail`, so `Failed(GemError(r).Result())` holds for
every `r`; and `ThrowGemError(r)` throws exactly when `Failed(r)`. -/
theorem c10_gem_error_always_failure (r : Result) :
    Failed ((GemError.ofResult r).Result) = true ∧
    (ThrowGemError r).isSome = Failed r := by
  cases r <;> decide

end Gem

